import Mathlib

/-!
# Verification of the F9 HTTP-client wrapper

A shallow embedding of the final iteration of the `F9` class (the TypeScript
HTTP call wrapper) together with theorems settling the specification claims.

Modelling conventions:
* JavaScript runtime values that can appear as request/response bodies are the
  inductive `JsVal` (with a constructor for `FormData` instances, whose
  `instanceof` test the code performs).  JavaScript truthiness is `truthy`.
* Header maps (plain JS objects used as string records) are functions
  `String → Option String`; object spread `{...a, ...b}` is `mergeHeaders`.
* The platform `fetch` is an injected transport `Transport`; it either throws
  (`FetchOutcome.fail`, carrying the thrown error's `.message`) or yields a
  response `Resp` whose body readers are modelled by `Option`-valued fields
  (`none` = the reader rejects).
* `localStorage` is an injected credential store `String → Option String`.
* Interceptors and status listeners are observable effects: each call returns,
  next to the envelope, the chronological list of `Event`s (interceptor
  invocations, the transport invocation with the exact request issued, and
  status-listener invocations).  A status listener is modelled as
  `Envelope → Option Envelope`: `some` is a (truthy) replacement envelope,
  `none` is a nullish/falsy return.
* The one runtime crash reachable in the pipeline — calling
  `String.prototype.includes` on an `undefined` `Content-Type` entry — is
  modelled by `Except JsError`.
* Wall-clock timing (`Date.now()` differences) is an external input `el`,
  threaded into `processingTime`.
-/

namespace F9

/-- JavaScript values that can occur as request parameters, bodies and
decoded response data.  Numbers are modelled as integers (no claim involves
non-integral numbers); `formData` models a `FormData` instance. -/
inductive JsVal where
  | null : JsVal
  | bool : Bool → JsVal
  | num : Int → JsVal
  | str : String → JsVal
  | arr : List JsVal → JsVal
  | obj : List (String × JsVal) → JsVal
  | formData : List (String × String) → JsVal
deriving Repr

/-- JavaScript truthiness of a `JsVal`. -/
def truthy : JsVal → Bool
  | .null => false
  | .bool b => b
  | .num n => n != 0
  | .str s => s != ""
  | .arr _ => true
  | .obj _ => true
  | .formData _ => true

/-- Truthiness of an optional string (an absent / `undefined` property is
falsy, the empty string is falsy). -/
def strTruthy : Option String → Bool
  | none => false
  | some s => s != ""

/-- A JS string-record used for headers: lookup by key. -/
def Headers := String → Option String

/-- The empty header object `{}`. -/
def emptyHeaders : Headers := fun _ => none

/-- Property assignment `h[k] = v`. -/
def headerInsert (h : Headers) (k v : String) : Headers :=
  fun k' => if k' = k then some v else h k'

/-- Property removal `delete h[k]`. -/
def headerDelete (h : Headers) (k : String) : Headers :=
  fun k' => if k' = k then none else h k'

/-- An object literal from a key/value list (later entries overwrite). -/
def headersOf (l : List (String × String)) : Headers :=
  l.foldl (fun h kv => headerInsert h kv.1 kv.2) emptyHeaders

/-- Object spread `{...base, ...extra}` restricted to lookups: entries of
`extra` win. -/
def mergeHeaders (base extra : Headers) : Headers :=
  fun k => match extra k with
    | some v => some v
    | none => base k

/-- The method union `'get' | 'post' | 'put' | 'patch' | 'delete'`. -/
inductive Method where
  | get | post | put | patch | delete
deriving DecidableEq, Repr

def Method.toStr : Method → String
  | .get => "get"
  | .post => "post"
  | .put => "put"
  | .patch => "patch"
  | .delete => "delete"

/-- The union `'blob' | 'text' | 'arrayBuffer' | 'json' | 'formData'`;
`RequestType` is the same union in the source. -/
inductive ResponseType where
  | blob | text | arrayBuffer | json | formData
deriving DecidableEq, Repr

/-- Does the pattern match a prefix of the character list? -/
def prefixMatch : List Char → List Char → Bool
  | [], _ => true
  | _ :: _, [] => false
  | p :: ps, c :: cs => (p = c) && prefixMatch ps cs

/-- Does the character list contain the pattern as a contiguous run? -/
def containsChars : List Char → List Char → Bool
  | [], pat => pat.isEmpty
  | c :: cs, pat => prefixMatch pat (c :: cs) || containsChars cs pat

/-- Substring test (`String.prototype.includes`). -/
def strContains (s pat : String) : Bool :=
  containsChars s.data pat.data

/-- Model of `#buildRequestType`: infer the body-encoding type from the merged
`Content-Type` header value. -/
def buildRequestType (contentType : String) : ResponseType :=
  if strContains contentType "text" then .text
  else if strContains contentType "form" then .formData
  else if strContains contentType "json" then .json
  else .arrayBuffer

/-- Model of `String.prototype.startsWith`. -/
def strStartsWith (s pre : String) : Bool :=
  prefixMatch pre.data s.data

/-- Model of `#buildFullPath`: paths starting with `http` are absolute; paths starting
with `/` are appended to the base path; otherwise a `/` is interposed. -/
def buildFullPath (basePath path : String) : String :=
  if strStartsWith path "http" then path
  else if strStartsWith path "/" then basePath ++ path
  else basePath ++ "/" ++ path

/-- Case-insensitive match of a (lowercase) pattern against a prefix of a
character list. -/
def matchesCI : List Char → List Char → Bool
  | [], _ => true
  | _ :: _, [] => false
  | p :: ps, c :: cs => (c.toLower = p) && matchesCI ps cs

/-- One left-to-right pass removing every occurrence of `http://` or
`https://` case-insensitively (the `/http:\/\/|https:\/\//gi` replace). -/
def stripSchemesAux : List Char → List Char
  | [] => []
  | c :: cs =>
    if matchesCI "https://".data (c :: cs) then stripSchemesAux (cs.drop 7)
    else if matchesCI "http://".data (c :: cs) then stripSchemesAux (cs.drop 6)
    else c :: stripSchemesAux cs
termination_by l => l.length
decreasing_by
  · simp only [List.length_drop, List.length_cons]; omega
  · simp only [List.length_drop, List.length_cons]; omega
  · simp only [List.length_cons]; omega

/-- Model of `#buildName`: method and url joined by a colon, with scheme
prefixes stripped. -/
def buildName (method : Method) (url : String) : String :=
  String.mk (stripSchemesAux (method.toStr ++ ":" ++ url).data)

/-- One escaped character of a JSON string literal. -/
def jsonEscapeChar (c : Char) : String :=
  if c = '"' then "\\\""
  else if c = '\\' then "\\\\"
  else if c = '\n' then "\\n"
  else if c = '\t' then "\\t"
  else if c = '\r' then "\\r"
  else String.singleton c

/-- A JSON string literal (quoted, escaped). -/
def jsonQuote (s : String) : String :=
  s.data.foldl (fun acc c => acc ++ jsonEscapeChar c) "\"" ++ "\""

mutual
/-- Model of `JSON.stringify` on the modelled values (a serialized `FormData` is the
empty object, a case the pipeline never reaches since `FormData` bodies
bypass serialization). -/
def jsonStringify : JsVal → String
  | .null => "null"
  | .bool true => "true"
  | .bool false => "false"
  | .num n => toString n
  | .str s => jsonQuote s
  | .arr xs => "[" ++ jsonStringifyArr xs ++ "]"
  | .obj fs => "\x7b" ++ jsonStringifyObj fs ++ "\x7d"
  | .formData _ => "\x7b\x7d"

def jsonStringifyArr : List JsVal → String
  | [] => ""
  | [x] => jsonStringify x
  | x :: y :: xs => jsonStringify x ++ "," ++ jsonStringifyArr (y :: xs)

def jsonStringifyObj : List (String × JsVal) → String
  | [] => ""
  | [(k, v)] => jsonQuote k ++ ":" ++ jsonStringify v
  | (k, v) :: f :: fs =>
    jsonQuote k ++ ":" ++ jsonStringify v ++ "," ++ jsonStringifyObj (f :: fs)
end

/-- The base64 alphabet. -/
def b64Char (n : Nat) : Char :=
  "ABCDEFGHIJKLMNOPQRSTUVWXYZabcdefghijklmnopqrstuvwxyz0123456789+/".data.getD n 'A'

/-- Base64 encoding of a byte list, three bytes at a time
(`Buffer.toString('base64')`). -/
def base64Core : List UInt8 → String
  | [] => ""
  | [a] =>
    String.mk [b64Char (a.toNat / 4), b64Char (a.toNat % 4 * 16)] ++ "=="
  | [a, b] =>
    String.mk [b64Char (a.toNat / 4), b64Char (a.toNat % 4 * 16 + b.toNat / 16),
      b64Char (b.toNat % 16 * 4)] ++ "="
  | a :: b :: c :: rest =>
    String.mk [b64Char (a.toNat / 4), b64Char (a.toNat % 4 * 16 + b.toNat / 16),
      b64Char (b.toNat % 16 * 4 + c.toNat / 64), b64Char (c.toNat % 64)]
      ++ base64Core rest

/-- Model of `Buffer.from(s).toString('base64')`: base64 of the UTF-8 bytes. -/
def base64Encode (s : String) : String :=
  base64Core s.toUTF8.data.toList

/-- The `Auth` descriptor: `BearerAuth {token?, header?, key?}` or
`BasicAuth {login, password, header?}`. -/
inductive Auth where
  | bearer (token header key : Option String)
  | basic (login password : String) (header : Option String)

/-- The auth header key: `auth.header` when truthy, else `Authorization`. -/
def authHeaderKey (header : Option String) : String :=
  if strTruthy header then header.getD "" else "Authorization"

/-- Bearer token resolution: a truthy explicit `token` wins, else a truthy
`key` is looked up in the credential store (`localStorage.getItem(key) || ''`),
else the empty string. -/
def bearerToken (store : String → Option String) (token key : Option String) : String :=
  if strTruthy token then token.getD ""
  else if strTruthy key then (store (key.getD "")).getD ""
  else ""

/-- Model of `#buildAuth`, applied once at construction: derive at most one header
entry from the auth descriptor and assign it into the default headers. -/
def buildAuthHeaders (store : String → Option String) (auth : Option Auth)
    (headers : Headers) : Headers :=
  match auth with
  | none => headers
  | some (.bearer token header key) =>
    let tok := bearerToken store token key
    if tok = "" then headers
    else headerInsert headers (authHeaderKey header) ("Bearer " ++ tok)
  | some (.basic login password header) =>
    if login = "" || password = "" then headers
    else headerInsert headers (authHeaderKey header)
      ("Basic " ++ base64Encode (login ++ ":" ++ password))

/-- The `FetchOptions` object handed to the transport. -/
structure FetchOpts where
  method : Method
  headers : Headers
  mode : Option String := none
  credentials : Option String := none
  body : Option JsVal := none

/-- The partial `F9Metadata` passed to the `onRequest` interceptor before the
transport call (no status, message, timing or retry count yet). -/
structure PreMetadata where
  url : String
  opts : FetchOpts
  method : Method
  requestName : String
  responseType : ResponseType

/-- The `F9Metadata` record: the diagnostic/replay record attached to every
envelope. -/
structure Metadata where
  processingTime : Nat
  url : String
  method : Method
  opts : FetchOpts
  requestName : String
  responseType : ResponseType
  status : Nat
  message : Option String
  headers : Option (List (String × String)) := none
  retryCount : Nat

/-- The `F9Response` envelope, the uniform result.  `message` is `Option` because the
status-0 branch of `#buildError` reads the (absent) `.message` property of a
thrown envelope, yielding `undefined`. -/
structure Envelope where
  success : Bool
  status : Nat
  message : Option String
  metadata : Metadata
  data : JsVal

/-- The status-listener table: the wildcard `'*'` entry and the numeric
entries.  A listener maps the envelope to `some` (truthy) replacement
envelope or `none` (nullish/falsy return). -/
structure StatusListeners where
  wildcard : Option (Envelope → Option Envelope) := none
  exact : Nat → Option (Envelope → Option Envelope) := fun _ => none

/-- The Client's persistent state.  Interceptors are external effects; the
model records only their presence (`typeof fn === 'function'`) and traces
their invocations as events. -/
structure Client where
  headers : Headers
  basePath : String
  auth : Option Auth := none
  statusListeners : StatusListeners := {}
  credentials : Option String := none
  hasOnRequest : Bool := false
  hasOnResponse : Bool := false

/-- The construction-time default headers. -/
def initialHeaders : Headers :=
  fun k => if k = "Content-Type" then some "application/json" else none

/-- Constructor `Options`. -/
structure Options where
  basePath : Option String := none
  auth : Option Auth := none
  credentials : Option String := none
  hasOnRequest : Bool := false
  hasOnResponse : Bool := false

/-- The constructor `new F9(options)`: store the options, start from the default headers and
apply `#buildAuth` once; the status-listener table starts empty. -/
def mkClient (store : String → Option String) (o : Option Options) : Client :=
  { headers := buildAuthHeaders store (o.bind (·.auth)) initialHeaders
    basePath := (o.bind (·.basePath)).getD ""
    auth := o.bind (·.auth)
    statusListeners := {}
    credentials := o.bind (·.credentials)
    hasOnRequest := (o.map (·.hasOnRequest)).getD false
    hasOnResponse := (o.map (·.hasOnResponse)).getD false }

/-- Model of `setHeaders`: merge the given headers right-biased into the defaults. -/
def setHeaders (c : Client) (h : Headers) : Client :=
  { c with headers := mergeHeaders c.headers h }

/-- Model of `setAuthorization`: assign the `Authorization` default header. -/
def setAuthorization (c : Client) (v : String) : Client :=
  { c with headers := headerInsert c.headers "Authorization" v }

/-- Model of `setCredentials`. -/
def setCredentials (c : Client) (cr : String) : Client :=
  { c with credentials := some cr }

/-- The `CallParams` object as consumed by `#call`: the typed routing fields plus the
remaining own properties (`rest`, the payload fields, in insertion order).
A present-but-falsy explicit `body` is modelled as absent (its only
observable difference is a falsy `body` field inside a non-JSON passthrough
object). -/
structure CallOptions where
  mode : Option String := none
  responseType : Option ResponseType := none

structure CallParams where
  headers : Option Headers := none
  options : Option CallOptions := none
  credentials : Option String := none
  body : Option JsVal := none
  hasOnRequest : Bool := false
  hasOnResponse : Bool := false
  method : Method
  path : String
  retryCount : Nat
  rest : List (String × JsVal) := []

/-- The `credentials` own property of the params object, as copied into a
default-built body (it is not among the four deleted fields). -/
def credField (p : CallParams) : List (String × JsVal) :=
  match p.credentials with
  | some s => [("credentials", .str s)]
  | none => []

/-- Model of `#buildBody`: a `FormData` body passes through; otherwise a truthy
explicit `body` is used, else the copied params object with `headers`,
`options`, `$method` and `$path` deleted (note: `$retryCount` is **not**
deleted).  A `json` request type serializes the result. -/
def buildBody (p : CallParams) (requestType : ResponseType) : JsVal :=
  match p.body with
  | some (.formData fd) => .formData fd
  | _ =>
    let copied : JsVal := .obj (p.rest ++ credField p ++ [("$retryCount", .num p.retryCount)])
    let body : JsVal :=
      match p.body with
      | some b => if truthy b then b else copied
      | none => copied
    if requestType = .json then .str (jsonStringify body) else body

/-- Is the built body a `FormData` instance? -/
def isFormData : JsVal → Bool
  | .formData _ => true
  | _ => false

/-- The runtime crash reachable in the pipeline: reading
`Content-Type` of a header object that lacks it and calling `.includes` on
the resulting `undefined`. -/
inductive JsError where
  | typeError
deriving DecidableEq, Repr

/-- The pure request-building phase of `#call` (lines 226–263): merge
headers, infer the request type from the merged `Content-Type` (a missing
entry crashes), resolve the response type, build and attach the body,
resolve credentials/mode, and build the full URL. -/
def buildRequest (c : Client) (p : CallParams) :
    Except JsError (String × FetchOpts × ResponseType) :=
  let headers := mergeHeaders c.headers (p.headers.getD emptyHeaders)
  match headers "Content-Type" with
  | none => .error .typeError
  | some ct =>
    let requestType := buildRequestType ct
    let responseType := (p.options.bind (·.responseType)).getD .json
    let body := buildBody p requestType
    let headers := if isFormData body then headerDelete headers "Content-Type" else headers
    let opts : FetchOpts :=
      { method := p.method
        headers := headers
        credentials := match p.credentials with
          | some pc => some pc
          | none => c.credentials
        mode := p.options.bind (·.mode)
        body := if p.method = .get then none else some body }
    .ok (buildFullPath c.basePath p.path, opts, responseType)

/-- What the transport (`fetch`) does for one request: reject with an error
whose `.message` is the given string, or produce a response. -/
structure Resp where
  status : Nat
  statusText : String
  /-- Result of `response.clone().text()`: `none` models a rejected read. -/
  textResult : Option String
  /-- Result of `response.json()`: `none` models an unparseable body. -/
  jsonResult : Option JsVal
  /-- Result of `response[responseType]()` for the success path decode. -/
  decode : ResponseType → Option JsVal
  headers : List (String × String) := []

inductive FetchOutcome where
  | fail (message : String)
  | resp (r : Resp)

/-- The injected transport primitive.  `raw` may invoke it with `undefined`
options, hence the `Option`. -/
def Transport := String → Option FetchOpts → FetchOutcome

/-- Model of `response.ok`: status in the inclusive range 200-299. -/
def respOk (status : Nat) : Bool :=
  200 ≤ status && status ≤ 299

/-- The `$data` of an HTTP-failure envelope (`#buildResponse`, non-ok
branch): read the text (both reads abort if it rejects), try the JSON body,
and replace a falsy JSON result by a truthy text body
(`if (!data && textData) data = textData`, then `data ?? null`). -/
def errorData (textResult : Option String) (jsonResult : Option JsVal) : JsVal :=
  match textResult with
  | none => .null
  | some t =>
    match jsonResult with
    | none => if t != "" then .str t else .null
    | some j => if !truthy j && t != "" then .str t else j

/-- What `#call`'s `catch` receives: a thrown transport error (carrying a
`.message` but no `$status`) or the envelope thrown by `#buildResponse`. -/
inductive Thrown where
  | err (message : String)
  | envl (e : Envelope)

/-- Model of `#buildError`: anything without a truthy `$status` becomes a status-0
envelope built from the thrown value's `.message` (which is `undefined` for
a thrown envelope); a thrown envelope with a truthy status passes through
with its metadata's `status`/`message` overlaid from the envelope. -/
def buildError (t : Thrown) (md : Metadata) : Envelope :=
  match t with
  | .err msg => { success := false, message := some msg, status := 0, metadata := md, data := .null }
  | .envl e =>
    if e.status = 0 then
      { success := false, message := none, status := 0, metadata := md, data := .null }
    else
      { e with metadata := { e.metadata with status := e.status, message := e.message } }

/-- Normalization of one transport outcome into the uniform envelope
(`#buildResponse` plus the `catch`/`#buildError` path).  `failMsg` is the
fallback message of the catch-built metadata (`'Failed to fetch'` in
`#call`, `'Fetch failed'` in `raw`). -/
def normalizeOutcome (outcome : FetchOutcome) (el : Nat) (url : String)
    (opts : FetchOpts) (requestName : String) (responseType : ResponseType)
    (failMsg : String) : Envelope :=
  match outcome with
  | .fail msg =>
    buildError (.err msg)
      { processingTime := el, url := url, method := opts.method, opts := opts
        requestName := requestName, responseType := responseType
        status := 0, message := some failMsg, retryCount := 0 }
  | .resp r =>
    let md : Metadata :=
      { processingTime := el, url := url, method := opts.method, opts := opts
        requestName := requestName, responseType := responseType
        status := r.status, message := some r.statusText, retryCount := 0 }
    if respOk r.status then
      { success := true, status := r.status, message := some r.statusText
        metadata := { md with headers := some r.headers }
        data := (r.decode responseType).getD .null }
    else
      buildError
        (.envl { success := false, status := r.status, message := some r.statusText
                 metadata := md, data := errorData r.textResult r.jsonResult })
        { processingTime := el, url := url, method := opts.method, opts := opts
          requestName := requestName, responseType := responseType
          status := r.status
          message := some (if r.statusText = "" then failMsg else r.statusText)
          retryCount := 0 }

/-- Observable effects of one call, in chronological order. -/
inductive Event where
  /-- An `onRequest` interceptor invocation (`isLocal := true` for the
  per-call one, which strictly shadows the global one). -/
  | requested (isLocal : Bool) (pre : PreMetadata)
  /-- The transport invocation, with the exact url and options issued. -/
  | fetched (url : String) (opts : Option FetchOpts)
  /-- The wildcard `'*'` status listener invocation (return discarded). -/
  | wildcardStatus (e : Envelope)
  /-- The exact-status listener invocation. -/
  | exactStatus (s : Nat) (e : Envelope)
  /-- An `onResponse` interceptor invocation (receives the pre-substitution
  envelope, per the `finally` block). -/
  | responded (isLocal : Bool) (e : Envelope)

def isListenerEvent : Event → Bool
  | .wildcardStatus _ => true
  | .exactStatus _ _ => true
  | _ => false

/-- The status-listener invocations of a trace. -/
def listenerEvents (tr : List Event) : List Event :=
  tr.filter isListenerEvent

/-- The status-dispatch block of `#call` (identical in its success and catch
branches): invoke the wildcard listener if registered (return discarded),
then the exact-status listener; a truthy return from the latter replaces
the envelope. -/
def statusDispatch (c : Client) (result : Envelope) : Envelope × List Event :=
  let wEvents : List Event :=
    match c.statusListeners.wildcard with
    | some _ => [.wildcardStatus result]
    | none => []
  match c.statusListeners.exact result.status with
  | some f =>
    match f result with
    | some replacement => (replacement, wEvents ++ [.exactStatus result.status result])
    | none => (result, wEvents ++ [.exactStatus result.status result])
  | none => (result, wEvents)

/-- Model of `#call`: build the request (a missing merged `Content-Type` crashes),
fire exactly one `onRequest` interceptor (per-call shadows global), invoke
the transport, normalize, run status dispatch only when the retry counter is
exactly 0, and fire exactly one `onResponse` interceptor with the
pre-substitution result (`finally`). -/
def call (c : Client) (t : Transport) (p : CallParams) (el : Nat) :
    Except JsError (Envelope × List Event) :=
  match buildRequest c p with
  | .error e => .error e
  | .ok (url, opts, responseType) =>
    let requestName := buildName p.method url
    let pre : PreMetadata :=
      { url := url, opts := opts, method := p.method
        requestName := requestName, responseType := responseType }
    let reqEvents : List Event :=
      if p.hasOnRequest then [.requested true pre]
      else if c.hasOnRequest then [.requested false pre]
      else []
    let n := normalizeOutcome (t url (some opts)) el url opts requestName
      responseType "Failed to fetch"
    let disp := if p.retryCount = 0 then statusDispatch c n else (n, [])
    let respEvents : List Event :=
      if p.hasOnResponse then [.responded true n]
      else if c.hasOnResponse then [.responded false n]
      else []
    .ok (disp.1, reqEvents ++ [.fetched url (some opts)] ++ disp.2 ++ respEvents)

/-- Model of `retry`: re-enter `#call` with the request reconstructed from the
envelope's metadata — recorded headers, the recorded `FetchOptions` object
standing in for the per-call options, the recorded url as the path, the
recorded (already encoded) body, and the retry counter incremented. -/
def retry (c : Client) (t : Transport) (resp : Envelope) (el : Nat) :
    Except JsError (Envelope × List Event) :=
  call c t
    { headers := some resp.metadata.opts.headers
      options := some { mode := resp.metadata.opts.mode, responseType := none }
      body := resp.metadata.opts.body
      method := resp.metadata.method
      path := resp.metadata.url
      retryCount := resp.metadata.retryCount + 1 } el

/-- The default `FetchOptions` of `raw` when none are given. -/
def defaultRawOpts : FetchOpts :=
  { method := .get, headers := headersOf [("Content-Type", "application/json")] }

/-- Model of `raw`: a parallel entry point that touches no client state — the given
url and options go to the transport verbatim (`undefined` options included),
only normalization runs, and the trace holds nothing but the transport
invocation.  Reading `Content-Type` for the (unused) request-type inference
crashes when the given headers lack it. -/
def raw (t : Transport) (url : String) (opts : Option FetchOpts) (el : Nat) :
    Except JsError (Envelope × List Event) :=
  let fetchOptions := opts.getD defaultRawOpts
  let method := (opts.map (·.method)).getD .get
  let requestName := buildName method url
  match fetchOptions.headers "Content-Type" with
  | none => .error .typeError
  | some _ =>
    .ok (normalizeOutcome (t url opts) el url fetchOptions requestName .json
      "Fetch failed", [.fetched url opts])

/-- The `Params` object of the public verb methods (the non-routing part of
`CallParams`). -/
structure Params where
  headers : Option Headers := none
  options : Option CallOptions := none
  credentials : Option String := none
  body : Option JsVal := none
  hasOnRequest : Bool := false
  hasOnResponse : Bool := false
  rest : List (String × JsVal) := []

/-- The `FormData | Params` argument of the verb methods. -/
inductive Args where
  | form (fd : List (String × String))
  | params (p : Params)

/-- Model of `#buildArgs`: a `FormData` argument becomes an object with the
form data as its explicit body. -/
def buildArgs : Args → Params
  | .form fd => { body := some (.formData fd) }
  | .params p => p

/-- The `CallParams` object a verb method passes to `#call`:
`{ $path, $method, ...buildArgs(params), $retryCount: 0 }`. -/
def mkCall (m : Method) (path : String) (a : Args) : CallParams :=
  let p := buildArgs a
  { headers := p.headers, options := p.options, credentials := p.credentials
    body := p.body, hasOnRequest := p.hasOnRequest, hasOnResponse := p.hasOnResponse
    method := m, path := path, retryCount := 0, rest := p.rest }

def get (c : Client) (t : Transport) (path : String) (a : Args) (el : Nat) :
    Except JsError (Envelope × List Event) :=
  call c t (mkCall .get path a) el

def post (c : Client) (t : Transport) (path : String) (a : Args) (el : Nat) :
    Except JsError (Envelope × List Event) :=
  call c t (mkCall .post path a) el

def put (c : Client) (t : Transport) (path : String) (a : Args) (el : Nat) :
    Except JsError (Envelope × List Event) :=
  call c t (mkCall .put path a) el

def patch (c : Client) (t : Transport) (path : String) (a : Args) (el : Nat) :
    Except JsError (Envelope × List Event) :=
  call c t (mkCall .patch path a) el

def deleteReq (c : Client) (t : Transport) (path : String) (a : Args) (el : Nat) :
    Except JsError (Envelope × List Event) :=
  call c t (mkCall .delete path a) el

end F9

namespace F9

/-! ## Shared concrete fixtures -/

/-- A credential store with no entries. -/
def noStore : String → Option String := fun _ => none

/-- A client `new F9()` over the empty store. -/
def defaultClient : Client := mkClient noStore none

/-- A transport that always rejects with message `"boom"`. -/
def failTransport : Transport := fun _ _ => .fail "boom"

/-- A plain `get('/a')` call descriptor. -/
def plainParams : CallParams := { method := .get, path := "/a", retryCount := 0 }

/-! ## C3: transport-level failure -/

/-- C3: for every call in which the transport primitive itself throws (no
response exists), the call returns — never throws — an envelope with
`success = false`, `status = 0`, `message` the thrown failure's description
and `data = null` (no exact-status listener being registered for status 0,
which could otherwise substitute the envelope). -/
theorem transport_failure_envelope (c : Client) (t : Transport) (p : CallParams)
    (el : Nat) (url : String) (opts : FetchOpts) (rt : ResponseType) (msg : String)
    (hreq : buildRequest c p = .ok (url, opts, rt))
    (ht : t url (some opts) = .fail msg)
    (hl : c.statusListeners.exact 0 = none) :
    ∃ env tr, call c t p el = .ok (env, tr) ∧
      env.success = false ∧ env.status = 0 ∧ env.message = some msg ∧
      env.data = .null := by
  simp only [call, hreq, normalizeOutcome, ht, buildError, statusDispatch, hl]
  by_cases h0 : p.retryCount = 0 <;>
    simp only [h0, if_true, if_false, reduceIte] <;>
    exact ⟨_, _, rfl, rfl, rfl, rfl, rfl⟩

/-- C3 witness: a concrete failing call. -/
theorem transport_failure_envelope_witness :
    ∃ env tr, call defaultClient failTransport plainParams 0 = .ok (env, tr) ∧
      env.success = false ∧ env.status = 0 ∧ env.message = some "boom" ∧
      env.data = .null :=
  transport_failure_envelope defaultClient failTransport plainParams 0 _ _ _ "boom"
    rfl rfl rfl

/-! ## C5: decode failure on a successful response -/

/-- C5: for every call receiving an ok response whose body decode (with the
resolved response-type reader) fails, the returned envelope keeps
`success = true` with `status`/`message` from the response while
`data = null`; the decode failure is never propagated (the call still
returns an envelope, assuming no exact-status listener substitutes it). -/
theorem decode_failure_data_null (c : Client) (t : Transport) (p : CallParams)
    (el : Nat) (url : String) (opts : FetchOpts) (rt : ResponseType) (r : Resp)
    (hreq : buildRequest c p = .ok (url, opts, rt))
    (ht : t url (some opts) = .resp r)
    (hok : respOk r.status = true)
    (hdec : r.decode rt = none)
    (hl : c.statusListeners.exact r.status = none) :
    ∃ env tr, call c t p el = .ok (env, tr) ∧
      env.success = true ∧ env.status = r.status ∧
      env.message = some r.statusText ∧ env.data = .null := by
  simp only [call, hreq, normalizeOutcome, ht, hok, if_true, hdec, Option.getD,
    statusDispatch, hl]
  by_cases h0 : p.retryCount = 0 <;>
    simp only [h0, if_true, if_false, reduceIte, hl] <;>
    exact ⟨_, _, rfl, rfl, rfl, rfl, rfl⟩

/-- A 200 response whose every body reader fails. -/
def undecodableResp : Resp :=
  { status := 200, statusText := "OK", textResult := some "", jsonResult := none
    decode := fun _ => none }

/-- A transport that always yields `undecodableResp`. -/
def undecodableTransport : Transport := fun _ _ => .resp undecodableResp

/-- C5 witness: a concrete ok-but-undecodable call. -/
theorem decode_failure_data_null_witness :
    ∃ env tr, call defaultClient undecodableTransport plainParams 0 = .ok (env, tr) ∧
      env.success = true ∧ env.status = 200 ∧
      env.message = some "OK" ∧ env.data = .null :=
  decode_failure_data_null defaultClient undecodableTransport plainParams 0
    _ _ _ undecodableResp rfl rfl rfl rfl rfl

/-! ## C7: right-biased header merge -/

/-- C7: header merging is right-biased in the order client defaults, then
the auth-derived header, then per-call headers: per-call keys take their
per-call value and absent keys fall back to the defaults; the auth-derived
entry is itself a right-biased singleton merge over the construction-time
defaults; concretely, defaults `{a:1, b:2}` with per-call `{b:3, c:4}` yield
`{a:1, b:3, c:4}`. -/
theorem header_merge_right_biased :
    (∀ (d ph : Headers) (k : String),
      mergeHeaders d ph k = match ph k with | some v => some v | none => d k)
    ∧ (∀ (store : String → Option String) (k : String),
      (mkClient store (some { auth := some (.bearer (some "secret") none none) })).headers k
        = mergeHeaders initialHeaders (headersOf [("Authorization", "Bearer secret")]) k)
    ∧ mergeHeaders (headersOf [("a", "1"), ("b", "2")])
        (headersOf [("b", "3"), ("c", "4")]) "a" = some "1"
    ∧ mergeHeaders (headersOf [("a", "1"), ("b", "2")])
        (headersOf [("b", "3"), ("c", "4")]) "b" = some "3"
    ∧ mergeHeaders (headersOf [("a", "1"), ("b", "2")])
        (headersOf [("b", "3"), ("c", "4")]) "c" = some "4" := by
  refine ⟨fun d ph k => rfl, fun store k => ?_, rfl, rfl, rfl⟩
  by_cases hk : k = "Authorization" <;>
    simp [mkClient, buildAuthHeaders, bearerToken, authHeaderKey, strTruthy,
      headerInsert, mergeHeaders, headersOf, List.foldl, emptyHeaders,
      initialHeaders, hk]

/-! ## C10: setHeaders merges rather than replaces -/

/-- C10: `setHeaders(h)` merges `h` right-biased into the existing default
header map: every key of `h` takes its new value, every other key (the
construction-time `Content-Type` and any auth-derived entry included) keeps
its previous value, and repeated calls accumulate. -/
theorem setHeaders_merges (c : Client) (h : Headers) (k : String) :
    ((setHeaders c h).headers k
      = match h k with | some v => some v | none => c.headers k)
    ∧ ∀ (h₂ : Headers), (setHeaders (setHeaders c h) h₂).headers k
        = match h₂ k with
          | some v => some v
          | none => match h k with | some v => some v | none => c.headers k :=
  ⟨rfl, fun _ => rfl⟩

/-! ## C8: Bearer auth with no resolvable token -/

/-- C8: a client constructed with a Bearer descriptor whose token does not
resolve (no truthy explicit token and no key resolvable in the credential
store, i.e. `bearerToken` is empty) gets no auth header at all: the auth
header key is entirely absent from the default headers (which remain exactly
the construction-time defaults), and every request built by the client whose
per-call headers do not bind that key is sent without it. -/
theorem bearer_no_token_no_header (store : String → Option String)
    (token header key : Option String) (o : Options)
    (hauth : o.auth = some (.bearer token header key))
    (htok : bearerToken store token key = "")
    (hct : authHeaderKey header ≠ "Content-Type") :
    ((mkClient store (some o)).headers (authHeaderKey header) = none)
    ∧ (∀ k, (mkClient store (some o)).headers k = initialHeaders k)
    ∧ (∀ (p : CallParams) (url : String) (opts : FetchOpts) (rt : ResponseType),
        (p.headers.getD emptyHeaders) (authHeaderKey header) = none →
        buildRequest (mkClient store (some o)) p = .ok (url, opts, rt) →
        opts.headers (authHeaderKey header) = none) := by
  have hch : ∀ k, (mkClient store (some o)).headers k = initialHeaders k := by
    intro k
    simp only [mkClient, Option.bind, hauth, buildAuthHeaders, htok, if_pos]
  refine ⟨(hch _).trans (by simp [initialHeaders, hct]), hch, ?_⟩
  intro p url opts rt hph hb
  unfold buildRequest at hb
  revert hb
  cases hcase :
      mergeHeaders (mkClient store (some o)).headers (p.headers.getD emptyHeaders)
        "Content-Type" with
  | none =>
    intro hb
    simp only [hcase] at hb
    exact Except.noConfusion hb
  | some ct =>
    intro hb
    simp only [hcase, Except.ok.injEq, Prod.mk.injEq] at hb
    obtain ⟨-, hopts, -⟩ := hb
    subst hopts
    have hmerge :
        mergeHeaders (mkClient store (some o)).headers (p.headers.getD emptyHeaders)
          (authHeaderKey header) = none := by
      simp only [mergeHeaders, hph, hch, initialHeaders, if_neg hct]
    by_cases hfd : isFormData (buildBody p (buildRequestType ct)) <;>
      simp [hfd, headerDelete, hmerge, if_neg hct]

/-- C8 witness: `new F9({auth: {type: 'Bearer'}})` over an empty store has no
`Authorization` default header. -/
theorem bearer_no_token_no_header_witness :
    (mkClient noStore (some { auth := some (.bearer none none none) })).headers
      "Authorization" = none :=
  (bearer_no_token_no_header noStore none none none _ rfl rfl (by decide)).1

/-! ## C2: status dispatch only on retryCount 0 -/

lemma statusDispatch_fst (c : Client) (n : Envelope) :
    (statusDispatch c n).1
      = match c.statusListeners.exact n.status with
        | some f => (match f n with | some replacement => replacement | none => n)
        | none => n := by
  unfold statusDispatch
  cases hw : c.statusListeners.wildcard <;>
    cases he : c.statusListeners.exact n.status <;>
    first
      | rfl
      | (rename_i f; cases hf : f n <;> simp [hf])

lemma statusDispatch_snd (c : Client) (n : Envelope) :
    (statusDispatch c n).2
      = (match c.statusListeners.wildcard with
         | some _ => [Event.wildcardStatus n]
         | none => [])
        ++ (match c.statusListeners.exact n.status with
            | some _ => [Event.exactStatus n.status n]
            | none => []) := by
  unfold statusDispatch
  cases hw : c.statusListeners.wildcard <;>
    cases he : c.statusListeners.exact n.status <;>
    first
      | rfl
      | (rename_i f; cases hf : f n <;> simp [hf])

lemma listenerEvents_statusDispatch (c : Client) (n : Envelope) :
    listenerEvents (statusDispatch c n).2 = (statusDispatch c n).2 := by
  rw [statusDispatch_snd]
  cases c.statusListeners.wildcard <;>
    cases c.statusListeners.exact n.status <;> rfl

lemma listenerEvents_reqEvents (b1 b2 : Bool) (pre : PreMetadata) :
    listenerEvents
      (if b1 then [Event.requested true pre]
       else if b2 then [Event.requested false pre] else []) = [] := by
  split_ifs <;> rfl

lemma listenerEvents_respEvents (b1 b2 : Bool) (n : Envelope) :
    listenerEvents
      (if b1 then [Event.responded true n]
       else if b2 then [Event.responded false n] else []) = [] := by
  split_ifs <;> rfl

lemma listenerEvents_callTrace (a d b : List Event) (u : String)
    (o : Option FetchOpts) (ha : listenerEvents a = [])
    (hd : listenerEvents d = d) (hb : listenerEvents b = []) :
    listenerEvents (a ++ [Event.fetched u o] ++ d ++ b) = d := by
  simp only [listenerEvents, List.filter_append] at *
  simp [ha, hd, hb, isListenerEvent, List.filter]

/-- C2: on a call whose retry counter is exactly 0, after normalization the
wildcard listener (if registered) is invoked first with the envelope and its
return value is discarded, then the exact-status listener (if registered) is
invoked with the envelope, and a non-nullish return from the latter replaces
the envelope returned to the caller; on a call whose retry counter is not 0,
no status listener is invoked and the normalized envelope is returned
unchanged. -/
theorem status_dispatch_contract (c : Client) (t : Transport) (p : CallParams)
    (el : Nat) (url : String) (opts : FetchOpts) (rt : ResponseType)
    (hreq : buildRequest c p = .ok (url, opts, rt)) :
    (p.retryCount = 0 →
      (call c t p el).map (fun x => (x.1, listenerEvents x.2))
        = .ok
          (let n := normalizeOutcome (t url (some opts)) el url opts
            (buildName p.method url) rt "Failed to fetch"
           ((match c.statusListeners.exact n.status with
             | some f => (match f n with | some replacement => replacement | none => n)
             | none => n),
           (match c.statusListeners.wildcard with
            | some _ => [Event.wildcardStatus n]
            | none => [])
           ++ (match c.statusListeners.exact n.status with
               | some _ => [Event.exactStatus n.status n]
               | none => []))))
    ∧ (p.retryCount ≠ 0 →
      (call c t p el).map (fun x => (x.1, listenerEvents x.2))
        = .ok
          (normalizeOutcome (t url (some opts)) el url opts
            (buildName p.method url) rt "Failed to fetch", [])) := by
  constructor <;> intro h0
  · simp only [call, hreq, h0, reduceIte, Except.map]
    rw [Except.ok.injEq, Prod.mk.injEq]
    exact ⟨statusDispatch_fst c _,
      (listenerEvents_callTrace _ _ _ _ _ (listenerEvents_reqEvents _ _ _)
        (listenerEvents_statusDispatch c _) (listenerEvents_respEvents _ _ _)).trans
        (statusDispatch_snd c _)⟩
  · simp only [call, hreq, if_neg h0, Except.map]
    rw [Except.ok.injEq, Prod.mk.injEq]
    exact ⟨rfl,
      listenerEvents_callTrace _ _ _ _ _ (listenerEvents_reqEvents _ _ _)
        rfl (listenerEvents_respEvents _ _ _)⟩

/-- A trivial envelope used as a concrete listener replacement value. -/
def dummyEnv : Envelope :=
  { success := true, status := 0, message := none
    metadata :=
      { processingTime := 0, url := "", method := .get
        opts := { method := .get, headers := emptyHeaders }
        requestName := "", responseType := .json, status := 0, message := none
        retryCount := 0 }
    data := .null }

/-- A 404 response with an unparseable body. -/
def notFoundResp : Resp :=
  { status := 404, statusText := "NF", textResult := some "x", jsonResult := none
    decode := fun _ => none }

/-- A transport that always yields `notFoundResp`. -/
def notFoundTransport : Transport := fun _ _ => .resp notFoundResp

/-- The `defaultClient` extended with a wildcard listener (returning a discarded truthy
value) and a 404 listener substituting `dummyEnv`. -/
def listenClient : Client :=
  { defaultClient with
    statusListeners :=
      { wildcard := some (fun e => some e)
        exact := fun s => if s = 404 then some (fun _ => some dummyEnv) else none } }

/-- The options `buildRequest` derives for `plainParams` on `listenClient`. -/
def c2Opts : FetchOpts :=
  { method := .get, headers := mergeHeaders listenClient.headers emptyHeaders }

/-- The normalized (pre-dispatch) envelope of the C2 witness call. -/
def c2Normalized : Envelope :=
  normalizeOutcome (.resp notFoundResp) 0 "/a" c2Opts (buildName .get "/a") .json
    "Failed to fetch"

/-- C2 witness: on a concrete retryCount-0 call hitting a 404, the wildcard
listener fires first, then the 404 listener, whose return substitutes the
envelope. -/
theorem status_dispatch_contract_witness :
    (call listenClient notFoundTransport plainParams 0).map
      (fun x => (x.1, listenerEvents x.2))
      = .ok (dummyEnv,
          [Event.wildcardStatus c2Normalized, Event.exactStatus 404 c2Normalized]) :=
  (status_dispatch_contract listenClient notFoundTransport plainParams 0 "/a"
    c2Opts .json rfl).1 rfl

/-! ## C1: retry and the metadata retry counter -/

/-- The envelope of a failed `get('/a')` (first attempt). -/
def c1Env : Envelope :=
  match call defaultClient failTransport plainParams 0 with
  | .ok (env, _) => env
  | .error _ => dummyEnv

/-- The payload-plus-leaked-counter object `{a: 1, $retryCount: 0}` that a
default-built body serializes. -/
def payloadBody : JsVal := .obj [("a", .num 1), ("$retryCount", .num 0)]

/-- The envelope of a failed `post('/x', {a: 1})`, whose metadata records the
JSON-encoded body string. -/
def c1PostEnv : Envelope :=
  match post defaultClient failTransport "/x" (.params { rest := [("a", .num 1)] }) 0 with
  | .ok (env, _) => env
  | .error _ => dummyEnv

/-- C1: `#call` stamps `retryCount: 0` into every envelope's metadata, so the
envelope returned by `retry(e)` carries `metadata.retryCount = 0`, not
`e.metadata.retryCount + 1`; moreover `retry` passes the recorded
already-JSON-encoded body back through JSON serialization, so the re-issued
wire body is the double-encoded string, not the one recorded in `e`. -/
theorem retry_metadata_counter_stuck_at_zero :
    c1Env.metadata.retryCount = 0
    ∧ (match retry defaultClient failTransport c1Env 0 with
       | .ok (env, _) => env.metadata.retryCount
       | .error _ => 7) = 0
    ∧ c1PostEnv.metadata.opts.body = some (.str (jsonStringify payloadBody))
    ∧ (match retry defaultClient failTransport c1PostEnv 0 with
       | .ok (_, tr) =>
         (match tr with
          | [Event.fetched _ (some o)] => o.body
          | _ => none)
       | .error _ => none)
      = some (.str (jsonStringify (.str (jsonStringify payloadBody))))
    ∧ jsonStringify (.str (jsonStringify payloadBody)) ≠ jsonStringify payloadBody :=
  ⟨rfl, rfl, rfl, rfl, by decide⟩

/-! ## C6: the retry counter is not removed from a default-built body -/

/-- The call `post('/x', {a: 1})` as passed to `#call`. -/
def c6Params : CallParams := mkCall .post "/x" (.params { rest := [("a", .num 1)] })

/-- The request `buildRequest` derives for `c6Params` on `defaultClient`. -/
def c6Opts : FetchOpts :=
  { method := .post, headers := mergeHeaders defaultClient.headers emptyHeaders
    body := some (.str (jsonStringify payloadBody)) }

/-- C6: `#buildBody` deletes only `headers`, `options`, `$method` and
`$path` from the copied params object, so the `$retryCount` routing field
survives into the wire body: `post('/x', {a: 1})` sends the serialization of
`{a: 1, $retryCount: 0}`, not of `{a: 1}`. -/
theorem retry_counter_leaks_into_wire_body :
    buildRequest defaultClient c6Params = .ok ("/x", c6Opts, .json)
    ∧ c6Opts.body = some (.str (jsonStringify payloadBody))
    ∧ jsonStringify payloadBody ≠ jsonStringify (.obj [("a", .num 1)]) :=
  ⟨rfl, rfl, by decide⟩

/-! ## C4: data preference on an HTTP-failure response -/

/-- A 404 response whose text body is `"0"` and whose JSON body parses to
the (falsy) number 0. -/
def zeroBodyResp : Resp :=
  { status := 404, statusText := "NF", textResult := some "0"
    jsonResult := some (.num 0), decode := fun _ => none }

/-- A transport that always yields `zeroBodyResp`. -/
def zeroBodyTransport : Transport := fun _ _ => .resp zeroBodyResp

/-- C4 counterexample: on a 404 whose body `"0"` parses as the falsy JSON
number 0, the envelope's data is the *textual* body `"0"`, not the parsed
JSON body, because the fallback fires on every falsy parse result. -/
theorem http_failure_json_preference_counterexample :
    (match call defaultClient zeroBodyTransport plainParams 0 with
     | .ok (env, _) => env.data
     | .error _ => .null) = .str "0"
    ∧ JsVal.str "0" ≠ JsVal.num 0 :=
  ⟨rfl, fun h => JsVal.noConfusion h⟩

/-- C4 amended: on an HTTP-failure response (non-ok, nonzero status, no
exact-status listener registered), the envelope has `success = false`,
`status`/`message` from the response, and data chosen as: the parsed JSON
body if parseable *and truthy*; else the textual body if readable and
non-empty; else the parsed JSON value if parseable; else null. -/
theorem http_failure_data_preference (c : Client) (t : Transport) (p : CallParams)
    (el : Nat) (url : String) (opts : FetchOpts) (rt : ResponseType) (r : Resp)
    (hreq : buildRequest c p = .ok (url, opts, rt))
    (ht : t url (some opts) = .resp r)
    (hok : respOk r.status = false)
    (hs : r.status ≠ 0)
    (hl : c.statusListeners.exact r.status = none) :
    (∃ env tr, call c t p el = .ok (env, tr) ∧
      env.success = false ∧ env.status = r.status ∧
      env.message = some r.statusText ∧
      env.data = errorData r.textResult r.jsonResult)
    ∧ (∀ (tx : String) (js : JsVal),
        errorData (some tx) (some js)
          = if truthy js then js else if tx ≠ "" then .str tx else js)
    ∧ (∀ tx : String, errorData (some tx) none
        = if tx ≠ "" then .str tx else .null)
    ∧ (∀ js : Option JsVal, errorData none js = .null) := by
  refine ⟨?_, ?_, ?_, fun js => rfl⟩
  · simp only [call, hreq, normalizeOutcome, ht, hok, Bool.false_eq_true, if_false,
      buildError, if_neg hs, statusDispatch, hl]
    by_cases h0 : p.retryCount = 0 <;>
      simp only [h0, reduceIte, hl] <;>
      exact ⟨_, _, rfl, rfl, rfl, rfl, rfl⟩
  · intro tx js
    by_cases hj : truthy js <;> by_cases htx : tx = "" <;>
      simp [errorData, hj, htx]
  · intro tx
    by_cases htx : tx = "" <;> simp [errorData, htx]

/-- C4 witness: a 404 with readable text `"x"` and unparseable JSON. -/
theorem http_failure_data_preference_witness :
    ∃ env tr, call defaultClient notFoundTransport plainParams 0 = .ok (env, tr) ∧
      env.success = false ∧ env.status = 404 ∧ env.message = some "NF" ∧
      env.data = errorData (some "x") none :=
  (http_failure_data_preference defaultClient notFoundTransport plainParams 0
    _ _ _ notFoundResp rfl rfl rfl (by decide) rfl).1

/-! ## C9: the raw entry point -/

/-- Options whose headers lack a `Content-Type` entry. -/
def noCTOpts : FetchOpts := { method := .get, headers := emptyHeaders }

/-- C9 counterexample: `raw` reads the `Content-Type` entry of the given
headers for an unused request-type inference *before* its try-block, so
options without one make the call reject with a TypeError instead of
returning an envelope. -/
theorem raw_missing_content_type_crash :
    raw failTransport "http://x" (some noCTOpts) 0 = .error .typeError := rfl

/-- C9 amended: for every url and options that are either absent or bind a
`Content-Type` header entry, `raw` touches no client state (it takes none):
the transport receives exactly the given url and options (no base path, no
auth, no default-header merge), the trace holds nothing but the transport
invocation (no interceptor, no status listener), and the result is the
normalized uniform envelope with metadata attached. -/
theorem raw_bypasses_pipeline (t : Transport) (url : String)
    (opts : Option FetchOpts) (el : Nat)
    (hct : match opts with
           | none => True
           | some o => (o.headers "Content-Type").isSome = true) :
    ∃ env, raw t url opts el = .ok (env, [Event.fetched url opts]) ∧
      env = normalizeOutcome (t url opts) el url (opts.getD defaultRawOpts)
        (buildName ((opts.map (·.method)).getD .get) url) .json "Fetch failed" := by
  cases opts with
  | none => exact ⟨_, rfl, rfl⟩
  | some o =>
    simp only [raw, Option.getD_some, Option.map_some']
    cases hc : o.headers "Content-Type" with
    | none => simp [hc] at hct
    | some ct =>
      simp only [hc]
      exact ⟨_, rfl, rfl⟩

/-- C9 witness: `raw(url)` with no options. -/
theorem raw_bypasses_pipeline_witness :
    ∃ env, raw failTransport "http://x" none 0
        = .ok (env, [Event.fetched "http://x" none]) ∧
      env = normalizeOutcome (.fail "boom") 0 "http://x" defaultRawOpts
        (buildName .get "http://x") .json "Fetch failed" :=
  raw_bypasses_pipeline failTransport "http://x" none 0 trivial

end F9
